import Mathlib

set_option maxHeartbeats 1000000
set_option maxRecDepth 4000

/-!
Verification development for the mailPilot conversation-state and
deduplication core.

The model is a shallow embedding of the Python sources:
  * `src/storage/thread_memory.py` (class `ThreadMemory`),
  * `src/chatgpt/client.py` (`check_zoom_mention`),
  * `src/marketing/outbound.py` (class `OutboundMarketing`),
  * `src/main.py` (`EmailAutoResponder.process_email`,
    the customer-filter/dedup loop of `check_new_emails`).

Modelling conventions:
  * `datetime` values are modeled as abstract integer time points (`Int`);
    `datetime.now()` becomes an explicit `now : Int` argument, and the
    configured retention window `THREAD_EXPIRATION_DAYS` becomes an explicit
    `window : Int` argument measured in the same abstract unit, so that
    `datetime.now() - timedelta(days=...)` becomes `now - window`.
  * Python `dict`s (`self.threads`, `self.sent_records`) are modeled as
    insertion-ordered association lists: assignment to an existing key
    updates it in place, assignment to a fresh key appends at the end.
  * File persistence (`_save_threads`, `_save_sent_records`) is a
    pass-through side effect with no observable effect on the in-memory
    state and is dropped.
  * The external collaborators used by `process_email` (the ChatGPT reply
    generator, the human-approval prompt, and the Gmail send call) are
    modeled as an oracle record carrying their results.
-/

/-- Lookup in an insertion-ordered association list (Python `dict` read:
`d[k]` / `d.get(k)` / `k in d`). -/
def getAssoc {β : Type} : List (String × β) → String → Option β
  | [], _ => none
  | (k, v) :: rest, key => if k = key then some v else getAssoc rest key

/-- Assignment in an insertion-ordered association list (Python `dict` write
`d[k] = v`): updates the first (unique) occurrence in place, appends at the
end when the key is fresh. -/
def setAssoc {β : Type} : List (String × β) → String → β → List (String × β)
  | [], key, val => [(key, val)]
  | (k, v) :: rest, key, val =>
      if k = key then (k, val) :: rest else (k, v) :: setAssoc rest key val

/-- One stored message of a thread, as built by `ThreadMemory.add_message`
(src/storage/thread_memory.py lines 55-62). -/
structure Message where
  timestamp : Int
  sender : String
  subject : String
  body : String
  message_id : String
  is_draft : Bool
deriving DecidableEq

/-- One thread record, as initialised by `ThreadMemory.add_message`
(src/storage/thread_memory.py lines 45-53) and mutated by the mark
operations.  The `is_expired` and `expired_at` fields are absent until
`mark_thread_as_expired` writes them; absence is modeled as
`is_expired = false` / `expired_at = none`, matching the source's
`thread.get('is_expired', False)` reads. -/
structure Thread where
  created_at : Int
  messages : List Message
  customer_email : String
  zoom_scheduled : Bool
  is_marketing_thread : Bool
  last_sender : Option String
  is_expired : Bool
  expired_at : Option Int
deriving DecidableEq

/-- The in-memory state of `ThreadMemory`: the `self.threads` dict. -/
structure ThreadMemory where
  threads : List (String × Thread)
deriving DecidableEq

/-- Dict read `thread_id in self.threads` / `self.threads[thread_id]`. -/
def findThread (mem : ThreadMemory) (thread_id : String) : Option Thread :=
  getAssoc mem.threads thread_id

/-- The message dict argument of `add_message`: both call sites in
src/main.py pass dicts read through `message.get('sender', '')` etc. -/
structure MsgDict where
  sender : String
  subject : String
  body : String
  id : String
  is_draft : Bool
deriving DecidableEq

/-- The message record appended by `add_message`
(src/storage/thread_memory.py lines 55-62). -/
def msgRecord (message : MsgDict) (now : Int) : Message :=
  { timestamp := now
    sender := message.sender
    subject := message.subject
    body := message.body
    message_id := message.id
    is_draft := message.is_draft }

/-- The thread value written back by `add_message`: the existing thread (or
the fresh record of lines 45-53 when the thread is new) with the message
appended and `last_sender` updated (lines 55-65). -/
def addedThread (mem : ThreadMemory) (thread_id : String) (message : MsgDict)
    (now : Int) : Thread :=
  let base : Thread :=
    match findThread mem thread_id with
    | some t => t
    | none =>
        { created_at := now
          messages := []
          customer_email := message.sender
          zoom_scheduled := false
          is_marketing_thread := false
          last_sender := none
          is_expired := false
          expired_at := none }
  { base with
      messages := base.messages ++ [msgRecord message now]
      last_sender := some message.sender }

/-- ThreadMemory.add_message (src/storage/thread_memory.py lines 43-67):
creates the thread if absent, appends the message record, updates
`last_sender` to the message's sender. -/
def add_message (mem : ThreadMemory) (thread_id : String) (message : MsgDict)
    (now : Int) : ThreadMemory :=
  ⟨setAssoc mem.threads thread_id (addedThread mem thread_id message now)⟩

/-- Shared shape of the three mark operations: mutate the thread record in
place when the thread exists, otherwise do nothing. -/
def modifyThread (mem : ThreadMemory) (thread_id : String) (f : Thread → Thread) :
    ThreadMemory :=
  match findThread mem thread_id with
  | none => mem
  | some t => ⟨setAssoc mem.threads thread_id (f t)⟩

/-- ThreadMemory.mark_zoom_scheduled (src/storage/thread_memory.py lines 94-98). -/
def mark_zoom_scheduled (mem : ThreadMemory) (thread_id : String) : ThreadMemory :=
  modifyThread mem thread_id (fun t => { t with zoom_scheduled := true })

/-- ThreadMemory.is_zoom_scheduled (src/storage/thread_memory.py lines 100-102). -/
def is_zoom_scheduled (mem : ThreadMemory) (thread_id : String) : Bool :=
  ((findThread mem thread_id).map Thread.zoom_scheduled).getD false

/-- ThreadMemory.get_last_sender (src/storage/thread_memory.py lines 123-125);
a missing thread and a stored `None` both collapse to `none`, as in Python. -/
def get_last_sender (mem : ThreadMemory) (thread_id : String) : Option String :=
  (findThread mem thread_id).bind Thread.last_sender

/-- ThreadMemory.is_thread_expired (src/storage/thread_memory.py lines
143-164): false for unknown or zoom-scheduled threads; otherwise compares
the last message timestamp (or `created_at` when there are no messages)
against `now - window`.  Note the source never consults the `is_expired`
flag here. -/
def is_thread_expired (mem : ThreadMemory) (thread_id : String)
    (window now : Int) : Bool :=
  match findThread mem thread_id with
  | none => false
  | some t =>
      if t.zoom_scheduled then false
      else
        match t.messages.getLast? with
        | some m => decide (m.timestamp < now - window)
        | none => decide (t.created_at < now - window)

/-- ThreadMemory.mark_thread_as_expired (src/storage/thread_memory.py lines
166-172): unconditionally sets `is_expired` and `expired_at` on any known
thread (there is no terminal-state check in the source). -/
def mark_thread_as_expired (mem : ThreadMemory) (thread_id : String)
    (now : Int) : ThreadMemory :=
  modifyThread mem thread_id
    (fun t => { t with is_expired := true, expired_at := some now })

/-- One iteration of the loop body of `cleanup_expired_threads`
(src/storage/thread_memory.py lines 179-182). -/
def sweepStep (window now : Int) (acc : Nat × ThreadMemory) (thread_id : String) :
    Nat × ThreadMemory :=
  if is_thread_expired acc.2 thread_id window now then
    (acc.1 + 1, mark_thread_as_expired acc.2 thread_id now)
  else acc

/-- ThreadMemory.cleanup_expired_threads (src/storage/thread_memory.py lines
174-187): iterates over a snapshot of the key list, marking and counting
every thread for which `is_thread_expired` currently holds.  Returns the
count together with the mutated store. -/
def cleanup_expired_threads (mem : ThreadMemory) (window now : Int) :
    Nat × ThreadMemory :=
  (mem.threads.map Prod.fst).foldl (sweepStep window now) (0, mem)

/-- ZOOM_CONFIRMATION_KEYWORDS (config/app_config.py lines 119-127). -/
def ZOOM_CONFIRMATION_KEYWORDS : List String :=
  ["zoom meeting scheduled",
   "calendar invite sent",
   "meeting confirmed",
   "see you on zoom",
   "zoom link:",
   "meeting id:",
   "join zoom meeting"]

/-- MAX_RETRIES (config/app_config.py line 133). -/
def MAX_RETRIES : Nat := 3

/-- Python list/string prefix test, used to build the substring test below. -/
def isPrefixList : List Char → List Char → Bool
  | [], _ => true
  | _ :: _, [] => false
  | a :: as, b :: bs => a == b && isPrefixList as bs

/-- Python substring containment `needle in hay` on character lists. -/
def isSubstring (needle : List Char) : List Char → Bool
  | [] => needle.isEmpty
  | c :: rest => isPrefixList needle (c :: rest) || isSubstring needle rest

/-- Python `needle in hay` for strings. -/
def strContains (hay needle : String) : Bool :=
  isSubstring needle.data hay.data

/-- Python `str.lower()` (ASCII range, which is all the source feeds it). -/
def pyLower (s : String) : String :=
  String.mk (s.data.map Char.toLower)

/-- ChatGPTClient.check_zoom_mention (src/chatgpt/client.py lines 58-63):
lowercases the text and tests each configured keyword for substring
containment. -/
def check_zoom_mention (text : String) : Bool :=
  ZOOM_CONFIRMATION_KEYWORDS.any (fun keyword => strContains (pyLower text) keyword)

/-- A fetched Gmail message as consumed by `process_email` and
`check_new_emails` (fields read from the message dict in src/main.py). -/
structure GMsg where
  id : String
  thread_id : String
  subject : String
  sender : String
  body : String
deriving DecidableEq

/-- Results of the external collaborators consulted on the respond path of
`process_email`: the ChatGPT reply (empty string is the failure sentinel of
`generate_response`), the human approval decision, and the outcome of each
successive `gmail.send_message` attempt (`none` models an exception or a
falsy result). -/
structure Oracle where
  reply : String
  approved : Bool
  sendAttempts : List (Option String)
deriving DecidableEq

/-- The send-retry loop of `process_email` (src/main.py lines 199-214):
up to `retries` attempts, stopping at the first truthy result. -/
def trySend : List (Option String) → Nat → Option String
  | _, 0 => none
  | [], _ + 1 => none
  | some r :: _, _ + 1 => some r
  | none :: rest, n + 1 => trySend rest n

/-- Outcome of one `process_email` call.  The three skip outcomes and the
three failure outcomes all correspond to `return False` in the source; the
distinct constructors record which branch was taken. -/
inductive Outcome where
  | skip_expired
  | skip_terminal
  | skip_awaiting
  | gen_failed
  | rejected
  | send_failed
  | sent (id : String)
deriving DecidableEq

/-- True exactly on the three skip outcomes (the guards that return before
the inbound message is appended). -/
def isSkip : Outcome → Bool
  | .skip_expired => true
  | .skip_terminal => true
  | .skip_awaiting => true
  | _ => false

/-- True exactly on the confirmed-send outcome. -/
def isSent : Outcome → Bool
  | .sent _ => true
  | _ => false

/-- The stored form of the inbound message appended on the respond path
(src/main.py line 164 feeding thread_memory.py lines 55-62; an inbound
Gmail dict has no `is_draft` key, so `message.get('is_draft', False)` is
false). -/
def inboundRecord (message : GMsg) : MsgDict :=
  { sender := message.sender
    subject := message.subject
    body := message.body
    id := message.id
    is_draft := false }

/-- EmailAutoResponder.process_email (src/main.py lines 126-244):
  1. expired guard (marks the thread expired as a side effect);
  2. terminal (zoom-scheduled) guard;
  3. awaiting-customer guard (`last_sender == 'You'`);
  4. respond path: append the inbound message, then generate / approve /
     send via the oracle; on a confirmed send append the sent message
     (sender `'You'`, subject `"Re: ..."`) and, if the reply text mentions
     zoom, mark the thread zoom-scheduled. -/
def process_email (mem : ThreadMemory) (message : GMsg) (oracle : Oracle)
    (window now : Int) : Outcome × ThreadMemory :=
  let tid := message.thread_id
  if is_thread_expired mem tid window now then
    (.skip_expired, mark_thread_as_expired mem tid now)
  else if is_zoom_scheduled mem tid then
    (.skip_terminal, mem)
  else if get_last_sender mem tid = some "You" then
    (.skip_awaiting, mem)
  else
    let mem1 := add_message mem tid (inboundRecord message) now
    if oracle.reply = "" then
      (.gen_failed, mem1)
    else if !oracle.approved then
      (.rejected, mem1)
    else
      match trySend oracle.sendAttempts MAX_RETRIES with
      | none => (.send_failed, mem1)
      | some result_id =>
          let mem2 := add_message mem1 tid
            { sender := "You"
              subject := "Re: " ++ message.subject
              body := oracle.reply
              id := result_id
              is_draft := false } now
          let mem3 :=
            if check_zoom_mention oracle.reply then mark_zoom_scheduled mem2 tid
            else mem2
          (.sent result_id, mem3)

/-- The customer-filter and per-thread dedup loop of
`EmailAutoResponder.check_new_emails` (src/main.py lines 284-300): keep a
fetched message when its sender passes the customer filter and its thread
id has not been seen yet in this cycle; the customer filter itself is an
external parameter here (it reads the configured allow-list). -/
def customer_messages (isCust : GMsg → Bool) : List String → List GMsg → List GMsg
  | _, [] => []
  | seen, m :: rest =>
      if isCust m then
        if m.thread_id ∈ seen then customer_messages isCust seen rest
        else m :: customer_messages isCust (m.thread_id :: seen) rest
      else customer_messages isCust seen rest

/-- One campaign-ledger entry (src/marketing/outbound.py lines 71-74). -/
structure LedgerEntry where
  sent_at : Int
  status : String
deriving DecidableEq

/-- The `self.sent_records` dict of `OutboundMarketing`: campaign id to
(recipient email to entry). -/
abbrev SentRecords := List (String × List (String × LedgerEntry))

/-- OutboundMarketing.has_been_sent (src/marketing/outbound.py lines 62-64). -/
def has_been_sent (records : SentRecords) (email campaign : String) : Bool :=
  match getAssoc records campaign with
  | none => false
  | some m => (getAssoc m email).isSome

/-- OutboundMarketing.mark_as_sent (src/marketing/outbound.py lines 66-76). -/
def mark_as_sent (records : SentRecords) (email campaign : String) (now : Int) :
    SentRecords :=
  let cur := (getAssoc records campaign).getD []
  setAssoc records campaign (setAssoc cur email { sent_at := now, status := "sent" })

/-- OutboundMarketing.get_unsent_customers (src/marketing/outbound.py lines
78-84): the loop appending each (name, email) pair whose email has not been
sent this campaign. -/
def get_unsent_customers (records : SentRecords)
    (customers : List (String × String)) (campaign : String) :
    List (String × String) :=
  customers.foldl
    (fun unsent c => if has_been_sent records c.2 campaign then unsent else unsent ++ [c])
    []

/-- Python whitespace class `\s` / `str.strip()` characters (space, tab,
newline, carriage return, vertical tab, form feed). -/
def pyIsSpace (c : Char) : Bool :=
  c == ' ' || c == '\t' || c == '\n' || c == '\r' ||
  c == Char.ofNat 11 || c == Char.ofNat 12

/-- Python `str.strip()`: drop leading and trailing whitespace. -/
def pyStrip (s : String) : String :=
  String.mk (((s.data.dropWhile pyIsSpace).reverse.dropWhile pyIsSpace).reverse)

/-- The line guard of `parse_customer_list` (src/marketing/outbound.py line
46): `if line and not line.startswith('#')`. -/
def keepLine (line : String) : Bool :=
  !(line == "") && !(isPrefixList "#".data line.data)

/-- Evaluation of `re.match(r'^(.+?)\s*<(.+?)>$', line)` with the two groups
stripped (src/marketing/outbound.py lines 48-51).  The anchored non-greedy
pattern matches iff the line ends in `>` and contains a `<` at some index
`i` with `1 <= i <= length - 3` (at least one character before the `<` and
at least one between `<` and the final `>`); the engine commits to the
first such `<`, group 1 is everything before it (the `\s*` absorbs the
whitespace run just before the `<`), and group 2 is everything between that
`<` and the final `>`. -/
def matchNameEmail (s : String) : Option (String × String) :=
  let cs := s.data
  let n := cs.length
  if n ≥ 4 ∧ cs.getLast? = some '>' then
    match (List.range n).find?
        (fun i => decide (1 ≤ i ∧ i + 3 ≤ n ∧ cs.get? i = some '<')) with
    | some i =>
        some (pyStrip (String.mk (((cs.take i).reverse.dropWhile pyIsSpace).reverse)),
              pyStrip (String.mk ((cs.drop (i + 1)).take (n - i - 2))))
    | none => none
  else none

/-- OutboundMarketing.parse_customer_list (src/marketing/outbound.py lines
38-60), with the file contents supplied as the list of raw lines: strip
each line, skip empty and `#` lines, parse the `Name <email>` format, and
fall back to `("Customer", line)` when the pattern does not match. -/
def parse_customer_list (lines : List String) : List (String × String) :=
  lines.foldl
    (fun customers raw =>
      let line := pyStrip raw
      if keepLine line then
        match matchNameEmail line with
        | some (name, email) => customers ++ [(name, email)]
        | none => customers ++ [("Customer", line)]
      else customers)
    []

/-- The per-line result of `parse_customer_list`, used to state its
characterisation: the parsed pair when the pattern matches, the fallback
pair otherwise. -/
def parseLine (line : String) : String × String :=
  match matchNameEmail line with
  | some p => p
  | none => ("Customer", line)

/-- Rendering of one message timestamp.  The source computes
`datetime.fromisoformat(ts).strftime("%Y-%m-%d %H:%M")`; with time points
modeled as abstract integers this is modeled as rendering the time point as
text.  No property proved here depends on the rendered digits. -/
def formatTime (t : Int) : String :=
  toString t

/-- The per-message block built by the loop body of `get_thread_context`
(src/storage/thread_memory.py lines 79-90): sender label, rendered
timestamp, optional subject line, body. -/
def formatBlock (m : Message) : String :=
  let senderType := if m.sender ≠ "You" then "Customer" else "You"
  let header := senderType ++ " (" ++ formatTime m.timestamp ++ "):\n"
  let withSubject :=
    if m.subject ≠ "" then header ++ "Subject: " ++ m.subject ++ "\n" else header
  withSubject ++ m.body ++ "\n"

/-- ThreadMemory.get_thread_context (src/storage/thread_memory.py lines
69-92): `none` for an unknown thread; otherwise the formatted blocks of the
non-draft messages, in stored order, joined by the separator. -/
def get_thread_context (mem : ThreadMemory) (thread_id : String) : Option String :=
  match findThread mem thread_id with
  | none => none
  | some t =>
      let context_parts :=
        t.messages.foldl
          (fun parts m => if m.is_draft then parts else parts ++ [formatBlock m]) []
      some (String.intercalate "\n---\n" context_parts)

/-- Reading an association list after an assignment: the assigned key sees
the new value, every other key is untouched. -/
theorem getAssoc_setAssoc {β : Type} (l : List (String × β)) (k key : String) (v : β) :
    getAssoc (setAssoc l k v) key = if key = k then some v else getAssoc l key := by
  induction l with
  | nil =>
      simp only [setAssoc, getAssoc]
      by_cases h : key = k
      · simp [h]
      · simp [h, Ne.symm h]
  | cons p rest ih =>
      obtain ⟨a, b⟩ := p
      simp only [setAssoc]
      by_cases hak : a = k
      · subst hak
        simp only [if_pos rfl, getAssoc]
        by_cases hk : key = a
        · simp [hk]
        · simp [hk, Ne.symm hk]
      · simp only [if_neg hak, getAssoc]
        by_cases hk : a = key
        · have hkk : ¬key = k := by rw [← hk]; exact hak
          simp [hk, hkk]
        · simp [hk, ih]

/-- Assignment to a key that is already present does not change the key
list of an association list. -/
theorem map_fst_setAssoc {β : Type} (l : List (String × β)) (k : String) (v : β)
    (h : (getAssoc l k).isSome) :
    (setAssoc l k v).map Prod.fst = l.map Prod.fst := by
  induction l with
  | nil => simp [getAssoc] at h
  | cons p rest ih =>
      obtain ⟨a, b⟩ := p
      by_cases hak : a = k
      · simp [setAssoc, hak]
      · simp [getAssoc, hak] at h
        simp [setAssoc, hak, ih h]

/-- Reading the store after `modifyThread`: the modified thread sees the
update (when it exists), every other thread is untouched. -/
theorem findThread_modifyThread (mem : ThreadMemory) (tid tid' : String)
    (f : Thread → Thread) :
    findThread (modifyThread mem tid' f) tid =
      match findThread mem tid' with
      | none => findThread mem tid
      | some t => if tid = tid' then some (f t) else findThread mem tid := by
  unfold modifyThread
  cases h : findThread mem tid' with
  | none => simp
  | some t => simp [findThread, getAssoc_setAssoc, h]

/-- Key list preservation for `modifyThread`. -/
theorem map_fst_modifyThread (mem : ThreadMemory) (tid : String) (f : Thread → Thread) :
    (modifyThread mem tid f).threads.map Prod.fst = mem.threads.map Prod.fst := by
  unfold modifyThread
  cases h : findThread mem tid with
  | none => rfl
  | some t =>
      exact map_fst_setAssoc _ _ _ (by simp [findThread] at h; simp [h])

/-- Marking a thread expired does not change the verdict of
`is_thread_expired` anywhere: the expiry test never reads the `is_expired`
flag, and `mark_thread_as_expired` changes nothing else. -/
theorem is_thread_expired_mark_thread_as_expired (mem : ThreadMemory)
    (tid tid' : String) (now' window now : Int) :
    is_thread_expired (mark_thread_as_expired mem tid' now') tid window now =
      is_thread_expired mem tid window now := by
  unfold is_thread_expired mark_thread_as_expired
  rw [findThread_modifyThread]
  cases h : findThread mem tid' with
  | none => rfl
  | some t =>
      by_cases htid : tid = tid'
      · subst htid
        simp [h]
      · simp [htid]

/-- Invariants of the sweep fold of `cleanup_expired_threads`: the count it
adds is exactly the number of listed keys whose thread currently tests
expired; the sweep changes no `is_thread_expired` verdict; and it preserves
the key list of the store. -/
theorem sweep_foldl_spec (window now : Int) (ks : List String) :
    ∀ (c : Nat) (mem : ThreadMemory),
      ((ks.foldl (sweepStep window now) (c, mem)).1
          = c + ks.countP (fun tid => is_thread_expired mem tid window now))
      ∧ (∀ tid,
          is_thread_expired ((ks.foldl (sweepStep window now) (c, mem)).2) tid window now
            = is_thread_expired mem tid window now)
      ∧ (((ks.foldl (sweepStep window now) (c, mem)).2.threads.map Prod.fst)
          = mem.threads.map Prod.fst) := by
  induction ks with
  | nil => intro c mem; simp
  | cons k rest ih =>
      intro c mem
      simp only [List.foldl_cons, List.countP_cons]
      by_cases h : is_thread_expired mem k window now
      · have hstep : sweepStep window now (c, mem) k
            = (c + 1, mark_thread_as_expired mem k now) := by
          simp [sweepStep, h]
        rw [hstep]
        obtain ⟨ih1, ih2, ih3⟩ := ih (c + 1) (mark_thread_as_expired mem k now)
        have hfun : (fun tid =>
              is_thread_expired (mark_thread_as_expired mem k now) tid window now)
            = (fun tid => is_thread_expired mem tid window now) :=
          funext fun tid => is_thread_expired_mark_thread_as_expired mem tid k now window now
        refine ⟨?_, ?_, ?_⟩
        · rw [ih1, hfun, h]
          simp
          omega
        · intro tid
          rw [ih2, is_thread_expired_mark_thread_as_expired]
        · rw [ih3]
          exact map_fst_modifyThread mem k _
      · have hstep : sweepStep window now (c, mem) k = (c, mem) := by
          simp [sweepStep, h]
        rw [hstep]
        obtain ⟨ih1, ih2, ih3⟩ := ih c mem
        refine ⟨?_, ih2, ih3⟩
        rw [ih1]
        simp [h]

/-- Marking one thread expired does not change how any other thread reads. -/
theorem findThread_mark_ne (mem : ThreadMemory) (tid k : String) (now : Int)
    (h : tid ≠ k) :
    findThread (mark_thread_as_expired mem k now) tid = findThread mem tid := by
  rw [mark_thread_as_expired, findThread_modifyThread]
  cases findThread mem k with
  | none => rfl
  | some t => simp [h]

/-- The sweep fold never touches a zoom-scheduled thread: its record is
carried through unchanged. -/
theorem sweep_foldl_preserves_terminal (window now : Int) (ks : List String) :
    ∀ (c : Nat) (mem : ThreadMemory) (tid : String) (t : Thread),
      findThread mem tid = some t → t.zoom_scheduled = true →
      findThread ((ks.foldl (sweepStep window now) (c, mem)).2) tid = some t := by
  induction ks with
  | nil =>
      intro c mem tid t h _
      simpa using h
  | cons k rest ih =>
      intro c mem tid t h hz
      simp only [List.foldl_cons]
      by_cases hexp : is_thread_expired mem k window now
      · have hke : tid ≠ k := by
          intro he
          subst he
          unfold is_thread_expired at hexp
          rw [h] at hexp
          simp [hz] at hexp
        have hstep : sweepStep window now (c, mem) k
            = (c + 1, mark_thread_as_expired mem k now) := by
          simp [sweepStep, hexp]
        rw [hstep]
        exact ih (c + 1) _ tid t (by rw [findThread_mark_ne _ _ _ _ hke]; exact h) hz
      · have hstep : sweepStep window now (c, mem) k = (c, mem) := by
          simp [sweepStep, hexp]
        rw [hstep]
        exact ih c mem tid t h hz

/-- Concrete one-thread store for the sweep counterexample: a single
non-terminal thread whose only message is far older than the retention
window. -/
def memC1 : ThreadMemory :=
  ⟨[("t1",
     { created_at := 0
       messages := [{ timestamp := 0, sender := "cust@example.com", subject := "Hello"
                      body := "Hi", message_id := "m1", is_draft := false }]
       customer_email := "cust@example.com"
       zoom_scheduled := false
       is_marketing_thread := false
       last_sender := some "cust@example.com"
       is_expired := false
       expired_at := none })]⟩

/-- C1 counterexample: with one stale, non-terminal thread and no activity
between the calls, the first sweep returns 1 but the second sweep returns 1
again, not 0 — `is_thread_expired` never reads the `is_expired` flag, so an
already-expired thread is re-counted. -/
theorem cleanup_second_sweep_counterexample :
    (cleanup_expired_threads memC1 30 100).1 = 1
    ∧ (cleanup_expired_threads (cleanup_expired_threads memC1 30 100).2 30 100).1 = 1
    ∧ (cleanup_expired_threads (cleanup_expired_threads memC1 30 100).2 30 100).1 ≠ 0 := by
  refine ⟨by decide, by decide, by decide⟩

/-- C1 (amended): `cleanup_expired_threads` counts every thread that
currently tests expired, and marking threads expired does not change that
test; hence a second sweep with no intervening activity returns the same
count as the first (zero only when the first was zero), rather than zero. -/
theorem cleanup_second_sweep_same_count :
    ∀ (window now : Int) (mem : ThreadMemory),
      (cleanup_expired_threads (cleanup_expired_threads mem window now).2 window now).1
        = (cleanup_expired_threads mem window now).1 := by
  intro window now mem
  unfold cleanup_expired_threads
  obtain ⟨h1, h2, h3⟩ := sweep_foldl_spec window now (mem.threads.map Prod.fst) 0 mem
  rw [h3]
  obtain ⟨g1, _, _⟩ := sweep_foldl_spec window now (mem.threads.map Prod.fst) 0
    ((mem.threads.map Prod.fst).foldl (sweepStep window now) (0, mem)).2
  rw [g1, h1]
  have hfun : (fun tid =>
        is_thread_expired ((mem.threads.map Prod.fst).foldl (sweepStep window now) (0, mem)).2
          tid window now)
      = (fun tid => is_thread_expired mem tid window now) :=
    funext fun tid => h2 tid
  rw [hfun]

/-- Concrete terminal (zoom-scheduled) thread for the C2 counterexample. -/
def tC2 : Thread :=
  { created_at := 0
    messages := []
    customer_email := "cust@example.com"
    zoom_scheduled := true
    is_marketing_thread := false
    last_sender := some "You"
    is_expired := false
    expired_at := none }

/-- Store holding only the terminal thread `tC2`. -/
def memC2 : ThreadMemory := ⟨[("t1", tC2)]⟩

/-- C2 counterexample: a direct `mark_thread_as_expired` call on a terminal
(zoom-scheduled) thread does set `expired = true` — the source has no
not-already-terminal guard, so the claimed invariant fails under the
claimed "any sequence of store operations including a direct call". -/
theorem mark_expired_terminal_counterexample :
    ((findThread memC2 "t1").map Thread.zoom_scheduled = some true)
    ∧ ((findThread memC2 "t1").map Thread.is_expired = some false)
    ∧ ((findThread (mark_thread_as_expired memC2 "t1" 7) "t1").map Thread.is_expired
        = some true) := by
  refine ⟨by decide, by decide, by decide⟩

/-- C2 (amended): `mark_thread_as_expired` unconditionally sets
`expired = true` and `expired_at = now` on any known thread, terminal or
not; the terminal-never-expired invariant holds only on the program's own
call path, because the sweep guards each mark with `is_thread_expired`,
which is false for terminal threads — so `cleanup_expired_threads` never
marks a terminal thread expired. -/
theorem mark_expired_unconditional_sweep_spares_terminal :
    (∀ (mem : ThreadMemory) (tid : String) (now : Int) (t : Thread),
        findThread mem tid = some t →
        findThread (mark_thread_as_expired mem tid now) tid
          = some { t with is_expired := true, expired_at := some now })
    ∧ (∀ (window now : Int) (mem : ThreadMemory) (tid : String) (t : Thread),
        findThread mem tid = some t → t.zoom_scheduled = true →
        findThread (cleanup_expired_threads mem window now).2 tid = some t) := by
  constructor
  · intro mem tid now t h
    rw [mark_thread_as_expired, findThread_modifyThread, h]
    simp
  · intro window now mem tid t h hz
    exact sweep_foldl_preserves_terminal window now (mem.threads.map Prod.fst) 0 mem tid t h hz

/-- Witness for the amended C2 theorem at the concrete terminal store. -/
theorem mark_expired_unconditional_sweep_spares_terminal_witness :
    findThread (cleanup_expired_threads memC2 30 100).2 "t1" = some tC2 :=
  mark_expired_unconditional_sweep_spares_terminal.2 30 100 memC2 "t1" tC2
    (by decide) (by decide)

/-- Reading back the thread just written by `add_message`. -/
theorem findThread_add_message_self (mem : ThreadMemory) (tid : String)
    (m : MsgDict) (now : Int) :
    findThread (add_message mem tid m now) tid = some (addedThread mem tid m now) := by
  unfold add_message findThread
  simp [getAssoc_setAssoc]

/-- An `add_message` on one thread does not change any other thread. -/
theorem findThread_add_message_ne (mem : ThreadMemory) (tid tid' : String)
    (m : MsgDict) (now : Int) (h : tid' ≠ tid) :
    findThread (add_message mem tid m now) tid' = findThread mem tid' := by
  unfold add_message findThread
  simp [getAssoc_setAssoc, h]

/-- The thread written by `add_message` carries the appended message list. -/
theorem addedThread_messages (mem : ThreadMemory) (tid : String) (m : MsgDict)
    (now : Int) :
    (addedThread mem tid m now).messages
      = ((findThread mem tid).map Thread.messages).getD [] ++ [msgRecord m now] := by
  unfold addedThread
  cases h : findThread mem tid <;> simp [h]

/-- The thread written by `add_message` ends with the appended message. -/
theorem addedThread_getLast (mem : ThreadMemory) (tid : String) (m : MsgDict)
    (now : Int) :
    (addedThread mem tid m now).messages.getLast? = some (msgRecord m now) := by
  rw [addedThread_messages]
  simp

/-- The thread written by `add_message` records the message's sender as
last sender. -/
theorem addedThread_last_sender (mem : ThreadMemory) (tid : String) (m : MsgDict)
    (now : Int) :
    (addedThread mem tid m now).last_sender = some m.sender := by
  unfold addedThread
  cases h : findThread mem tid <;> simp [h]

/-- `add_message` leaves the zoom-scheduled flag as it was (a fresh thread
starts with it false, matching the `getD false` read on a missing thread). -/
theorem addedThread_zoom (mem : ThreadMemory) (tid : String) (m : MsgDict)
    (now : Int) :
    (addedThread mem tid m now).zoom_scheduled = is_zoom_scheduled mem tid := by
  unfold addedThread is_zoom_scheduled
  cases h : findThread mem tid <;> simp [h]

/-- `is_zoom_scheduled` is unchanged by `add_message`, on every thread. -/
theorem is_zoom_scheduled_add_message (mem : ThreadMemory) (tid tid' : String)
    (m : MsgDict) (now : Int) :
    is_zoom_scheduled (add_message mem tid m now) tid' = is_zoom_scheduled mem tid' := by
  by_cases h : tid' = tid
  · subst h
    unfold is_zoom_scheduled
    rw [findThread_add_message_self]
    have := addedThread_zoom mem tid' m now
    unfold is_zoom_scheduled at this
    simp [this]
  · unfold is_zoom_scheduled
    rw [findThread_add_message_ne mem tid tid' m now h]

/-- The last-activity time point consulted by `is_thread_expired`: the
timestamp of the most recent message, or `created_at` when the thread has
no messages. -/
def lastActivity (t : Thread) : Int :=
  match t.messages.getLast? with
  | some m => m.timestamp
  | none => t.created_at

/-- C4: `is_thread_expired` is false for an unknown thread and for a
terminal (zoom-scheduled) thread; for a known non-terminal thread it is
true exactly when the last activity (most recent message timestamp, or
`created_at` with no messages) is older than `now` minus the retention
window; and once `mark_zoom_scheduled` has run, it is false at every later
time. -/
theorem is_thread_expired_spec :
    ∀ (mem : ThreadMemory) (tid : String) (window now : Int),
      (findThread mem tid = none → is_thread_expired mem tid window now = false)
      ∧ (∀ t, findThread mem tid = some t → t.zoom_scheduled = true →
          is_thread_expired mem tid window now = false)
      ∧ (∀ t, findThread mem tid = some t → t.zoom_scheduled = false →
          (is_thread_expired mem tid window now = true ↔ lastActivity t < now - window))
      ∧ (∀ now2, is_thread_expired (mark_zoom_scheduled mem tid) tid window now2 = false) := by
  intro mem tid window now
  refine ⟨?_, ?_, ?_, ?_⟩
  · intro h
    unfold is_thread_expired
    rw [h]
  · intro t h hz
    unfold is_thread_expired
    rw [h]
    simp [hz]
  · intro t h hz
    unfold is_thread_expired
    rw [h]
    simp only [hz]
    cases hm : t.messages.getLast? <;> simp [lastActivity, hm]
  · intro now2
    unfold is_thread_expired mark_zoom_scheduled
    rw [findThread_modifyThread]
    cases h : findThread mem tid <;> simp [h, is_thread_expired]

/-- Concrete fixture for the C4 witness: a stale non-terminal thread. -/
def tC4 : Thread :=
  { created_at := 0
    messages := [{ timestamp := 10, sender := "cust@example.com", subject := "Hello"
                   body := "Hi", message_id := "m1", is_draft := false }]
    customer_email := "cust@example.com"
    zoom_scheduled := false
    is_marketing_thread := false
    last_sender := some "cust@example.com"
    is_expired := false
    expired_at := none }

/-- Store holding only `tC4`. -/
def memC4 : ThreadMemory := ⟨[("t1", tC4)]⟩

/-- Witness for C4 at the concrete store: the non-terminal stale thread
tests expired, and after `mark_zoom_scheduled` it no longer does at an
arbitrarily late time. -/
theorem is_thread_expired_spec_witness :
    is_thread_expired memC4 "t1" 30 100 = true
    ∧ is_thread_expired (mark_zoom_scheduled memC4 "t1") "t1" 30 1000000 = false := by
  constructor
  · exact ((is_thread_expired_spec memC4 "t1" 30 100).2.2.1 tC4 (by decide) (by decide)).mpr
      (by decide)
  · exact (is_thread_expired_spec memC4 "t1" 30 0).2.2.2 1000000

/-- C3: after the system appends a self-sent ('You') message to thread T,
immediately re-running the conversation policy (`process_email`) on any
inbound candidate message for T yields the awaiting-customer skip outcome
and leaves the store untouched, regardless of the thread's marketing-origin
flag — provided the appended reply has not (yet) marked the thread terminal
and the retention window is positive (so a just-touched thread is not
expired). -/
theorem policy_after_self_message_skips_awaiting :
    ∀ (mem : ThreadMemory) (selfMsg : MsgDict) (inbound : GMsg) (oracle : Oracle)
      (window now : Int),
      selfMsg.sender = "You" → 0 < window →
      is_zoom_scheduled (add_message mem inbound.thread_id selfMsg now)
        inbound.thread_id = false →
      process_email (add_message mem inbound.thread_id selfMsg now) inbound oracle
        window now
        = (Outcome.skip_awaiting, add_message mem inbound.thread_id selfMsg now) := by
  intro mem selfMsg inbound oracle window now hsender hw hz
  have hfind := findThread_add_message_self mem inbound.thread_id selfMsg now
  have hzz : (addedThread mem inbound.thread_id selfMsg now).zoom_scheduled = false := by
    have h2 : is_zoom_scheduled (add_message mem inbound.thread_id selfMsg now)
        inbound.thread_id
        = (addedThread mem inbound.thread_id selfMsg now).zoom_scheduled := by
      unfold is_zoom_scheduled
      rw [hfind]
      rfl
    rw [← h2, hz]
  have hexp : is_thread_expired (add_message mem inbound.thread_id selfMsg now)
      inbound.thread_id window now = false := by
    unfold is_thread_expired
    rw [hfind]
    simp only [hzz, addedThread_getLast, msgRecord, if_false, Bool.false_eq_true,
      decide_eq_false_iff_not]
    simp
    omega
  have hlast : get_last_sender (add_message mem inbound.thread_id selfMsg now)
      inbound.thread_id = some "You" := by
    unfold get_last_sender
    rw [hfind]
    simp [addedThread_last_sender, hsender]
  unfold process_email
  simp [hexp, hz, hlast]

/-- Concrete self-sent message for the C3 witness. -/
def selfMsgC3 : MsgDict :=
  { sender := "You", subject := "Re: Hello", body := "Thanks!", id := "m1"
    is_draft := false }

/-- Concrete inbound candidate message for the C3 witness. -/
def inboundC3 : GMsg :=
  { id := "m2", thread_id := "t1", subject := "Hello", sender := "cust@example.com"
    body := "Are you there?" }

/-- Concrete oracle for the C3 witness. -/
def oracleC3 : Oracle :=
  { reply := "Sure", approved := true, sendAttempts := [some "m3"] }

/-- Witness for C3: on the empty store, after appending the self-sent
message the policy skips the inbound message and leaves the store as it
was. -/
theorem policy_after_self_message_skips_awaiting_witness :
    process_email (add_message ⟨[]⟩ inboundC3.thread_id selfMsgC3 5) inboundC3
      oracleC3 30 5
      = (Outcome.skip_awaiting, add_message ⟨[]⟩ inboundC3.thread_id selfMsgC3 5) :=
  policy_after_self_message_skips_awaiting ⟨[]⟩ selfMsgC3 inboundC3 oracleC3 30 5
    (by decide) (by decide) (by decide)

/-- Marking a thread expired leaves every zoom-scheduled flag unchanged. -/
theorem is_zoom_scheduled_mark_expired (mem : ThreadMemory) (tid tid' : String)
    (now : Int) :
    is_zoom_scheduled (mark_thread_as_expired mem tid' now) tid
      = is_zoom_scheduled mem tid := by
  unfold is_zoom_scheduled mark_thread_as_expired
  rw [findThread_modifyThread]
  cases h : findThread mem tid' with
  | none => rfl
  | some t =>
      by_cases htid : tid = tid'
      · subst htid
        simp [h]
      · simp [htid]

/-- Marking an existing thread zoom-scheduled makes its flag read true. -/
theorem is_zoom_scheduled_mark_zoom_found (mem : ThreadMemory) (tid : String)
    (h : (findThread mem tid).isSome = true) :
    is_zoom_scheduled (mark_zoom_scheduled mem tid) tid = true := by
  unfold is_zoom_scheduled mark_zoom_scheduled
  rw [findThread_modifyThread]
  cases hf : findThread mem tid with
  | none => rw [hf] at h; simp at h
  | some t => simp

/-- The thread touched by `add_message` exists afterwards. -/
theorem findThread_add_message_isSome (mem : ThreadMemory) (tid : String)
    (m : MsgDict) (now : Int) :
    (findThread (add_message mem tid m now) tid).isSome = true := by
  rw [findThread_add_message_self]
  rfl

/-- C5: terminal detection is a case-insensitive substring scan of the
configured keyword list, applied to the outgoing reply text only: the
example reply containing a keyword tests positive, the inbound text without
one tests negative, and after any `process_email` call the zoom-scheduled
flag of the processed thread equals its previous value or-ed with (send
confirmed AND the reply text mentions zoom) — the inbound message body
never enters the detection. -/
theorem zoom_detection_on_reply_only :
    (check_zoom_mention "Zoom meeting scheduled for 3pm" = true)
    ∧ (check_zoom_mention "can we zoom?" = false)
    ∧ ∀ (mem : ThreadMemory) (message : GMsg) (oracle : Oracle) (window now : Int),
        is_zoom_scheduled (process_email mem message oracle window now).2
          message.thread_id
          = (is_zoom_scheduled mem message.thread_id
             || (isSent (process_email mem message oracle window now).1
                 && check_zoom_mention oracle.reply)) := by
  refine ⟨by decide, by decide, ?_⟩
  intro mem message oracle window now
  by_cases h1 : is_thread_expired mem message.thread_id window now
  · simp [process_email, h1, isSent, is_zoom_scheduled_mark_expired]
  · by_cases h2 : is_zoom_scheduled mem message.thread_id
    · simp [process_email, h1, h2, isSent]
    · by_cases h3 : get_last_sender mem message.thread_id = some "You"
      · simp [process_email, h1, h2, h3, isSent]
      · by_cases h4 : oracle.reply = ""
        · simp [process_email, h1, h2, h3, h4, isSent, is_zoom_scheduled_add_message, h2]
        · by_cases h5 : oracle.approved
          · cases h6 : trySend oracle.sendAttempts MAX_RETRIES with
            | none =>
                simp [process_email, h1, h2, h3, h4, h5, h6, isSent,
                  is_zoom_scheduled_add_message, h2]
            | some rid =>
                by_cases h7 : check_zoom_mention oracle.reply
                · simp only [process_email, h1, h2, h3, h4, h5, h6, h7]
                  simp [isSent, h7,
                    is_zoom_scheduled_mark_zoom_found _ _
                      (findThread_add_message_isSome _ _ _ _)]
                · simp only [process_email, h1, h2, h3, h4, h5, h6, h7]
                  simp [isSent, h7, is_zoom_scheduled_add_message, h2]
          · simp [process_email, h1, h2, h3, h4, h5, isSent,
              is_zoom_scheduled_add_message, h2]

/-- The accumulator form of the `get_unsent_customers` loop. -/
theorem unsent_foldl_aux (records : SentRecords) (campaign : String) :
    ∀ (customers : List (String × String)) (acc : List (String × String)),
      customers.foldl
        (fun unsent c =>
          if has_been_sent records c.2 campaign then unsent else unsent ++ [c]) acc
        = acc ++ customers.filter (fun c => !has_been_sent records c.2 campaign) := by
  intro customers
  induction customers with
  | nil => intro acc; simp
  | cons c rest ih =>
      intro acc
      simp only [List.foldl_cons, List.filter_cons]
      by_cases h : has_been_sent records c.2 campaign
      · simp [h, ih]
      · simp [h, ih]

/-- Recipients marked sent read back as sent. -/
theorem has_been_sent_mark_self (records : SentRecords) (email campaign : String)
    (now : Int) :
    has_been_sent (mark_as_sent records email campaign now) email campaign = true := by
  unfold has_been_sent mark_as_sent
  simp [getAssoc_setAssoc]

/-- C6: `get_unsent_customers` returns exactly the recipients whose email
has not been sent for the campaign, preserving input order; in particular a
just-marked recipient disappears from the list, and a never-marked
recipient stays in it. -/
theorem campaign_ledger_dedup :
    (∀ (records : SentRecords) (campaign : String)
        (customers : List (String × String)),
        get_unsent_customers records customers campaign
          = customers.filter (fun c => !has_been_sent records c.2 campaign))
    ∧ (∀ (records : SentRecords) (now : Int),
        get_unsent_customers (mark_as_sent records "a@x.com" "c1" now)
          [("A", "a@x.com")] "c1" = [])
    ∧ (∀ (records : SentRecords) (campaign : String)
        (customers : List (String × String)) (name email : String),
        has_been_sent records email campaign = false → (name, email) ∈ customers →
        (name, email) ∈ get_unsent_customers records customers campaign) := by
  have heq : ∀ (records : SentRecords) (campaign : String)
      (customers : List (String × String)),
      get_unsent_customers records customers campaign
        = customers.filter (fun c => !has_been_sent records c.2 campaign) := by
    intro records campaign customers
    unfold get_unsent_customers
    rw [unsent_foldl_aux]
    simp
  refine ⟨heq, ?_, ?_⟩
  · intro records now
    rw [heq]
    simp [has_been_sent_mark_self]
  · intro records campaign customers name email h hmem
    rw [heq]
    rw [List.mem_filter]
    exact ⟨hmem, by simp [h]⟩

/-- Witness for C6: a never-marked recipient survives `get_unsent_customers`
on the empty ledger. -/
theorem campaign_ledger_dedup_witness :
    ("B", "b@x.com") ∈ get_unsent_customers [] [("B", "b@x.com")] "c1" :=
  campaign_ledger_dedup.2.2 [] "c1" [("B", "b@x.com")] "B" "b@x.com"
    (by decide) (by decide)

/-- Invariant of the dedup loop: the surviving messages carry pairwise
distinct thread ids, none of which was in the seen set, each passed the
customer filter and came from the input. -/
theorem customer_messages_aux (isCust : GMsg → Bool) :
    ∀ (msgs : List GMsg) (seen : List String),
      (((customer_messages isCust seen msgs).map GMsg.thread_id).Nodup)
      ∧ (∀ m ∈ customer_messages isCust seen msgs,
          ¬ m.thread_id ∈ seen ∧ isCust m = true ∧ m ∈ msgs) := by
  intro msgs
  induction msgs with
  | nil => intro seen; simp [customer_messages]
  | cons m rest ih =>
      intro seen
      by_cases hc : isCust m
      · by_cases hs : m.thread_id ∈ seen
        · simp only [customer_messages, hc, if_true, hs, ite_true]
          refine ⟨(ih seen).1, ?_⟩
          intro m' hm'
          obtain ⟨h1, h2, h3⟩ := (ih seen).2 m' hm'
          exact ⟨h1, h2, List.mem_cons_of_mem _ h3⟩
        · simp only [customer_messages, hc, if_true, hs, ite_false]
          constructor
          · rw [List.map_cons, List.nodup_cons]
            constructor
            · intro hmem
              rw [List.mem_map] at hmem
              obtain ⟨m', hm', htid⟩ := hmem
              obtain ⟨h1, _, _⟩ := (ih (m.thread_id :: seen)).2 m' hm'
              exact h1 (by rw [htid]; exact List.mem_cons_self _ _)
            · exact (ih (m.thread_id :: seen)).1
          · intro m' hm'
            rcases List.mem_cons.mp hm' with h | h
            · subst h
              exact ⟨hs, hc, List.mem_cons_self _ _⟩
            · obtain ⟨h1, h2, h3⟩ := (ih (m.thread_id :: seen)).2 m' h
              refine ⟨?_, h2, List.mem_cons_of_mem _ h3⟩
              intro hin
              exact h1 (List.mem_cons_of_mem _ hin)
      · simp only [customer_messages, hc, ite_false]
        refine ⟨(ih seen).1, ?_⟩
        intro m' hm'
        obtain ⟨h1, h2, h3⟩ := (ih seen).2 m' hm'
        exact ⟨h1, h2, List.mem_cons_of_mem _ h3⟩

/-- Every customer message's thread id is represented in the dedup output. -/
theorem customer_messages_covers (isCust : GMsg → Bool) :
    ∀ (msgs : List GMsg) (seen : List String) (m : GMsg),
      isCust m = true → m ∈ msgs → ¬ m.thread_id ∈ seen →
      ∃ m', m' ∈ customer_messages isCust seen msgs
        ∧ m'.thread_id = m.thread_id := by
  intro msgs
  induction msgs with
  | nil => intro seen m _ hm _; simp at hm
  | cons m0 rest ih =>
      intro seen m hc hm hs
      rcases List.mem_cons.mp hm with h | h
      · subst h
        simp only [customer_messages, hc, if_true, hs, ite_false]
        exact ⟨m, List.mem_cons_self _ _, rfl⟩
      · by_cases hc0 : isCust m0
        · by_cases hs0 : m0.thread_id ∈ seen
          · simp only [customer_messages, hc0, if_true, hs0, ite_true]
            exact ih seen m hc h hs
          · simp only [customer_messages, hc0, if_true, hs0, ite_false]
            by_cases heq : m.thread_id = m0.thread_id
            · exact ⟨m0, List.mem_cons_self _ _, heq.symm⟩
            · obtain ⟨m', hm', htid⟩ := ih (m0.thread_id :: seen) m hc h
                (by simp [heq, hs])
              exact ⟨m', List.mem_cons_of_mem _ hm', htid⟩
        · simp only [customer_messages, hc0, ite_false]
          exact ih seen m hc h hs

/-- C7: within one cycle the dedup loop of `check_new_emails` keeps at most
one message per distinct thread id (the output thread ids are pairwise
distinct), keeps only messages from the fetch that pass the customer
filter, keeps a representative for every customer message's thread id, and
on two same-thread messages keeps exactly the first. -/
theorem per_cycle_thread_dedup :
    (∀ (isCust : GMsg → Bool) (msgs : List GMsg),
        ((customer_messages isCust [] msgs).map GMsg.thread_id).Nodup)
    ∧ (∀ (isCust : GMsg → Bool) (msgs : List GMsg) (m : GMsg),
        m ∈ customer_messages isCust [] msgs → isCust m = true ∧ m ∈ msgs)
    ∧ (∀ (isCust : GMsg → Bool) (msgs : List GMsg) (m : GMsg),
        isCust m = true → m ∈ msgs →
        ∃ m', m' ∈ customer_messages isCust [] msgs
          ∧ m'.thread_id = m.thread_id)
    ∧ (∀ (isCust : GMsg → Bool) (m1 m2 : GMsg),
        isCust m1 = true → m1.thread_id = m2.thread_id →
        customer_messages isCust [] [m1, m2] = [m1]) := by
  refine ⟨?_, ?_, ?_, ?_⟩
  · intro isCust msgs
    exact (customer_messages_aux isCust msgs []).1
  · intro isCust msgs m hm
    obtain ⟨_, h2, h3⟩ := (customer_messages_aux isCust msgs []).2 m hm
    exact ⟨h2, h3⟩
  · intro isCust msgs m hc hm
    exact customer_messages_covers isCust msgs [] m hc hm (by simp)
  · intro isCust m1 m2 hc htid
    by_cases hc2 : isCust m2
    · simp [customer_messages, hc, hc2, ← htid]
    · simp [customer_messages, hc, hc2, ← htid]

/-- Concrete fixtures for the C7 witness: two fetched messages in the same
thread. -/
def msgA : GMsg :=
  { id := "m1", thread_id := "t1", subject := "s1", sender := "cust@example.com"
    body := "first" }

/-- Second fetched message of the C7 witness, same thread as `msgA`. -/
def msgB : GMsg :=
  { id := "m2", thread_id := "t1", subject := "s2", sender := "cust@example.com"
    body := "second" }

/-- Witness for C7: feeding two same-thread messages through the dedup loop
processes exactly the first. -/
theorem per_cycle_thread_dedup_witness :
    customer_messages (fun _ => true) [] [msgA, msgB] = [msgA] :=
  per_cycle_thread_dedup.2.2.2 (fun _ => true) msgA msgB (by decide) (by decide)

/-- The accumulator form of the `get_thread_context` loop: it collects the
formatted blocks of exactly the non-draft messages, in stored order. -/
theorem context_parts_foldl (msgs : List Message) :
    ∀ (acc : List String),
      msgs.foldl (fun parts m => if m.is_draft then parts else parts ++ [formatBlock m]) acc
        = acc ++ (msgs.filter (fun m => !m.is_draft)).map formatBlock := by
  induction msgs with
  | nil => intro acc; simp
  | cons m rest ih =>
      intro acc
      simp only [List.foldl_cons, List.filter_cons]
      by_cases h : m.is_draft
      · simp [h, ih]
      · simp [h, ih]

/-- Draft message of the C8 scenario fixture. -/
def draftC8 : Message :=
  { timestamp := 1, sender := "You", subject := "Re: hi", body := "draft body"
    message_id := "m1", is_draft := true }

/-- Confirmed message of the C8 scenario fixture. -/
def confirmedC8 : Message :=
  { timestamp := 2, sender := "cust@example.com", subject := "hi", body := "hello"
    message_id := "m2", is_draft := false }

/-- Thread of the C8 scenario: one draft-flagged and one confirmed message. -/
def tC8 : Thread :=
  { created_at := 0
    messages := [draftC8, confirmedC8]
    customer_email := "cust@example.com"
    zoom_scheduled := false
    is_marketing_thread := false
    last_sender := some "cust@example.com"
    is_expired := false
    expired_at := none }

/-- Store for the C8 scenario, holding only `tC8`. -/
def memC8 : ThreadMemory := ⟨[("t1", tC8)]⟩

/-- C8: `get_thread_context` returns the unknown-thread sentinel `none` when
the thread id is absent; for a known thread it returns exactly the
formatted blocks of its non-draft messages, oldest first, joined by the
visible separator; the empty string when every message is a draft; and on
the one-draft-one-confirmed fixture, exactly the confirmed message's block. -/
theorem get_thread_context_spec :
    (∀ (mem : ThreadMemory) (tid : String),
        findThread mem tid = none → get_thread_context mem tid = none)
    ∧ (∀ (mem : ThreadMemory) (tid : String) (t : Thread),
        findThread mem tid = some t →
        get_thread_context mem tid
          = some (String.intercalate "\n---\n"
              ((t.messages.filter (fun m => !m.is_draft)).map formatBlock)))
    ∧ (∀ (mem : ThreadMemory) (tid : String) (t : Thread),
        findThread mem tid = some t → (∀ m ∈ t.messages, m.is_draft = true) →
        get_thread_context mem tid = some "")
    ∧ (get_thread_context memC8 "t1" = some (formatBlock confirmedC8)) := by
  have hsome : ∀ (mem : ThreadMemory) (tid : String) (t : Thread),
      findThread mem tid = some t →
      get_thread_context mem tid
        = some (String.intercalate "\n---\n"
            ((t.messages.filter (fun m => !m.is_draft)).map formatBlock)) := by
    intro mem tid t h
    unfold get_thread_context
    rw [h]
    dsimp only
    rw [context_parts_foldl]
    simp
  refine ⟨?_, hsome, ?_, ?_⟩
  · intro mem tid h
    unfold get_thread_context
    rw [h]
  · intro mem tid t h hall
    rw [hsome mem tid t h]
    have hfil : t.messages.filter (fun m => !m.is_draft) = [] := by
      rw [List.filter_eq_nil_iff]
      intro m hm
      simp [hall m hm]
    rw [hfil]
    rfl
  · rw [hsome memC8 "t1" tC8 (by decide)]
    decide

/-- All-draft fixture thread for the C8 witness. -/
def tC8W : Thread :=
  { created_at := 0
    messages := [draftC8]
    customer_email := "cust@example.com"
    zoom_scheduled := false
    is_marketing_thread := false
    last_sender := some "You"
    is_expired := false
    expired_at := none }

/-- Store holding only the all-draft thread `tC8W`. -/
def memC8W : ThreadMemory := ⟨[("t1", tC8W)]⟩

/-- Witness for C8: a thread whose only message is a draft renders as the
empty string. -/
theorem get_thread_context_spec_witness :
    get_thread_context memC8W "t1" = some "" :=
  get_thread_context_spec.2.2.1 memC8W "t1" tC8W (by decide)
    (by intro m hm; rw [List.mem_singleton.mp hm]; decide)

/-- The accumulator form of the `parse_customer_list` loop: every kept line
contributes exactly its `parseLine` pair, in order. -/
theorem parse_customer_list_foldl (lines : List String) :
    ∀ (acc : List (String × String)),
      lines.foldl
        (fun customers raw =>
          let line := pyStrip raw
          if keepLine line then
            match matchNameEmail line with
            | some (name, email) => customers ++ [(name, email)]
            | none => customers ++ [("Customer", line)]
          else customers) acc
        = acc ++ ((lines.map pyStrip).filter keepLine).map parseLine := by
  induction lines with
  | nil => intro acc; simp
  | cons raw rest ih =>
      intro acc
      simp only [List.foldl_cons, List.map_cons, List.filter_cons]
      by_cases h : keepLine (pyStrip raw)
      · cases hm : matchNameEmail (pyStrip raw) with
        | some p =>
            obtain ⟨name, email⟩ := p
            simp [h, hm, ih, parseLine]
        | none =>
            simp [h, hm, ih, parseLine]
      · simp [h, ih]

/-- C9: `parse_customer_list` never rejects a line — each stripped non-empty
non-comment line contributes exactly one pair (the parsed
`Name <email>` pair when the pattern matches, the fallback
`("Customer", line)` otherwise), so the output length equals the number of
kept lines; the concrete fixture exercises both branches and the skipped
comment/blank lines. -/
theorem parse_customer_list_total :
    (∀ (lines : List String),
        parse_customer_list lines
          = ((lines.map pyStrip).filter keepLine).map parseLine)
    ∧ (∀ (lines : List String),
        (parse_customer_list lines).length
          = ((lines.map pyStrip).filter keepLine).length)
    ∧ (parse_customer_list ["# note", "   ", "Alice <a@x.com>", "not-an-address"]
        = [("Alice", "a@x.com"), ("Customer", "not-an-address")]) := by
  have heq : ∀ (lines : List String),
      parse_customer_list lines
        = ((lines.map pyStrip).filter keepLine).map parseLine := by
    intro lines
    unfold parse_customer_list
    rw [parse_customer_list_foldl]
    simp
  refine ⟨heq, ?_, by decide⟩
  intro lines
  rw [heq]
  simp

/-- Once the three guards pass, `process_email` is on the respond path and
its outcome is never a skip outcome, whatever the oracle returns. -/
theorem process_email_respond_not_skip (mem : ThreadMemory) (message : GMsg)
    (oracle : Oracle) (window now : Int)
    (h1 : is_thread_expired mem message.thread_id window now = false)
    (h2 : is_zoom_scheduled mem message.thread_id = false)
    (h3 : ¬ get_last_sender mem message.thread_id = some "You") :
    isSkip (process_email mem message oracle window now).1 = false := by
  unfold process_email
  by_cases h4 : oracle.reply = ""
  · simp [h1, h2, h3, h4, isSkip]
  · by_cases h5 : oracle.approved
    · cases h6 : trySend oracle.sendAttempts MAX_RETRIES with
      | none => simp [h1, h2, h3, h4, h5, h6, isSkip]
      | some rid => simp [h1, h2, h3, h4, h5, h6, isSkip]
    · simp [h1, h2, h3, h4, h5, isSkip]

/-- On the respond path with a failing oracle (empty reply, rejection, or
all send attempts failing), `process_email` returns the store with exactly
the inbound message appended. -/
theorem process_email_failure_state (mem : ThreadMemory) (message : GMsg)
    (oracle : Oracle) (window now : Int)
    (h1 : is_thread_expired mem message.thread_id window now = false)
    (h2 : is_zoom_scheduled mem message.thread_id = false)
    (h3 : ¬ get_last_sender mem message.thread_id = some "You")
    (h4 : oracle.reply = "" ∨ oracle.approved = false
      ∨ trySend oracle.sendAttempts MAX_RETRIES = none) :
    isSent (process_email mem message oracle window now).1 = false
    ∧ (process_email mem message oracle window now).2
        = add_message mem message.thread_id (inboundRecord message) now := by
  unfold process_email
  rcases h4 with h4 | h4 | h4
  · simp [h1, h2, h3, h4, isSent]
  · by_cases hr : oracle.reply = ""
    · simp [h1, h2, h3, hr, isSent]
    · simp [h1, h2, h3, hr, h4, isSent]
  · by_cases hr : oracle.reply = ""
    · simp [h1, h2, h3, hr, isSent]
    · by_cases ha : oracle.approved
      · simp [h1, h2, h3, hr, ha, h4, isSent]
      · simp [h1, h2, h3, hr, ha, isSent]

/-- C10 (implicit): on the respond path the inbound message is appended
before the generator runs, so when the generator returns its empty-string
sentinel, or the approver rejects, or every send attempt fails, the thread
keeps the appended inbound message, its last sender is the customer (not
'You'), no self-sent message was appended, the terminal flag is unchanged
(false), and a later policy run on the thread — at any time at which the
thread has not yet expired — enters the respond path again instead of
skipping. -/
theorem respond_failure_keeps_inbound :
    ∀ (mem : ThreadMemory) (message : GMsg) (oracle : Oracle) (window now : Int),
      is_thread_expired mem message.thread_id window now = false →
      is_zoom_scheduled mem message.thread_id = false →
      ¬ get_last_sender mem message.thread_id = some "You" →
      (oracle.reply = "" ∨ oracle.approved = false
        ∨ trySend oracle.sendAttempts MAX_RETRIES = none) →
      ¬ message.sender = "You" →
      (isSkip (process_email mem message oracle window now).1 = false
        ∧ isSent (process_email mem message oracle window now).1 = false)
      ∧ (findThread (process_email mem message oracle window now).2 message.thread_id
          = some (addedThread mem message.thread_id (inboundRecord message) now)
         ∧ (addedThread mem message.thread_id (inboundRecord message) now).messages
            = ((findThread mem message.thread_id).map Thread.messages).getD []
              ++ [msgRecord (inboundRecord message) now]
         ∧ (addedThread mem message.thread_id (inboundRecord message) now).last_sender
            = some message.sender
         ∧ (addedThread mem message.thread_id (inboundRecord message) now).zoom_scheduled
            = false)
      ∧ (∀ (oracle2 : Oracle) (message2 : GMsg) (now2 : Int),
          message2.thread_id = message.thread_id →
          ¬ (now < now2 - window) →
          isSkip (process_email (process_email mem message oracle window now).2
            message2 oracle2 window now2).1 = false) := by
  intro mem message oracle window now h1 h2 h3 h4 h5
  obtain ⟨hsent, hstate⟩ := process_email_failure_state mem message oracle window now h1 h2 h3 h4
  have hskip := process_email_respond_not_skip mem message oracle window now h1 h2 h3
  have hfind : findThread (process_email mem message oracle window now).2 message.thread_id
      = some (addedThread mem message.thread_id (inboundRecord message) now) := by
    rw [hstate]
    exact findThread_add_message_self mem message.thread_id (inboundRecord message) now
  have hzoomAfter : (addedThread mem message.thread_id (inboundRecord message) now).zoom_scheduled
      = false := by
    rw [addedThread_zoom]
    exact h2
  refine ⟨⟨hskip, hsent⟩,
    ⟨hfind, addedThread_messages _ _ _ _, addedThread_last_sender _ _ _ _, hzoomAfter⟩, ?_⟩
  intro oracle2 message2 now2 htid hfresh
  have g1 : is_thread_expired (process_email mem message oracle window now).2
      message2.thread_id window now2 = false := by
    rw [htid]
    unfold is_thread_expired
    rw [hfind]
    simp only [hzoomAfter, addedThread_getLast, msgRecord, Bool.false_eq_true, if_false]
    simp only [decide_eq_false_iff_not]
    exact hfresh
  have g2 : is_zoom_scheduled (process_email mem message oracle window now).2
      message2.thread_id = false := by
    rw [htid]
    unfold is_zoom_scheduled
    rw [hfind]
    simp [hzoomAfter]
  have g3 : ¬ get_last_sender (process_email mem message oracle window now).2
      message2.thread_id = some "You" := by
    rw [htid]
    unfold get_last_sender
    rw [hfind]
    simp [addedThread_last_sender, inboundRecord, h5]
  exact process_email_respond_not_skip _ message2 oracle2 window now2 g1 g2 g3

/-- Inbound message fixture for the C10 witness. -/
def msgC10 : GMsg :=
  { id := "m1", thread_id := "t1", subject := "hi", sender := "cust@example.com"
    body := "hello" }

/-- Failing oracle for the C10 witness: the generator returns the empty
sentinel. -/
def oracleC10 : Oracle :=
  { reply := "", approved := true, sendAttempts := [] }

/-- Second-run oracle for the C10 witness. -/
def oracleC10b : Oracle :=
  { reply := "ok", approved := true, sendAttempts := [some "m9"] }

/-- Witness for C10: after a failed generation on the empty store, an
immediate re-run on the same thread is not skipped. -/
theorem respond_failure_keeps_inbound_witness :
    isSkip (process_email (process_email ⟨[]⟩ msgC10 oracleC10 30 0).2 msgC10
      oracleC10b 30 0).1 = false :=
  (respond_failure_keeps_inbound ⟨[]⟩ msgC10 oracleC10 30 0 (by decide) (by decide)
    (by decide) (Or.inl rfl) (by decide)).2.2 oracleC10b msgC10 0 rfl (by decide)
